import Mathlib

/-!
Shallow embedding of the AprilTag multicore vision pipeline
(single file src/vision/main.cpp) for checking the specification.

Doubles and floats of the source are modelled as rationals (exact
arithmetic), machine ints as Int.  External libraries (GStreamer
capture, the AprilTag detector, the OpenCV PnP solver and Rodrigues
conversion, the display) are modelled as inputs: a detector output is a
list of detections, the solver is an arbitrary function parameter.
-/

namespace Vision

/-! ## Configuration constants (main.cpp lines 20-24) -/

def LOW_W : Int := 640

def LOW_H : Int := 480

def ROI_PAD : Int := 80

def TAG_SIZE : ℚ := 1552 / 10000

/-! ## Geometry: cv::Rect over Int, with the OpenCV intersection
operator (types.hpp operator&: x1 = max of left edges, size = min of
right edges minus x1, and any non-positive side collapses the result
to the all-zero rectangle). -/

structure Rect where
  x : Int
  y : Int
  w : Int
  h : Int
deriving DecidableEq

def rectInter (a b : Rect) : Rect :=
  if min (a.x + a.w) (b.x + b.w) - max a.x b.x ≤ 0 ∨
     min (a.y + a.h) (b.y + b.h) - max a.y b.y ≤ 0 then
    ⟨0, 0, 0, 0⟩
  else
    ⟨max a.x b.x, max a.y b.y,
     min (a.x + a.w) (b.x + b.w) - max a.x b.x,
     min (a.y + a.h) (b.y + b.h) - max a.y b.y⟩

def rectEmpty (r : Rect) : Bool :=
  decide (r.w ≤ 0) || decide (r.h ≤ 0)

/-! ## Truncation of a rational toward zero: the semantics of the C
cast int(d) applied to a double d (floor for nonnegative values,
ceiling for negative ones). -/

def truncQ (q : ℚ) : Int :=
  if 0 ≤ q then ⌊q⌋ else ⌈q⌉

/-! ## Data model (main.cpp lines 29-46).  The pixel buffer itself is
external; a FrameData records the frame dimensions (cols, rows of the
grayscale conversion, which preserves them) and the capture
timestamp. -/

structure FrameData where
  w : Int
  h : Int
  t_cam_ns : Int
deriving DecidableEq

structure ROIResult where
  data : FrameData
  roi : Rect
  valid : Bool
deriving DecidableEq

/-! ## A detection: the four corner points det.p[0..3] returned by the
AprilTag detector, as rationals (doubles in the source). -/

structure Det where
  x0 : ℚ
  y0 : ℚ
  x1 : ℚ
  y1 : ℚ
  x2 : ℚ
  y2 : ℚ
  x3 : ℚ
  y3 : ℚ
deriving DecidableEq

def detOfInts (x0 y0 x1 y1 x2 y2 x3 y3 : Int) : Det :=
  ⟨(x0 : ℚ), (y0 : ℚ), (x1 : ℚ), (y1 : ℚ),
   (x2 : ℚ), (y2 : ℚ), (x3 : ℚ), (y3 : ℚ)⟩

/-! ## The bounding-box scan of lowResThread (main.cpp lines 153-159):
minx starts at 1e9 and folds min over the four corner xs; maxx starts
at -1e9 and folds max; same for y. -/

def detMinX (d : Det) : ℚ :=
  min (min (min (min (1000000000 : ℚ) d.x0) d.x1) d.x2) d.x3

def detMinY (d : Det) : ℚ :=
  min (min (min (min (1000000000 : ℚ) d.y0) d.y1) d.y2) d.y3

def detMaxX (d : Det) : ℚ :=
  max (max (max (max (-1000000000 : ℚ) d.x0) d.x1) d.x2) d.x3

def detMaxY (d : Det) : ℚ :=
  max (max (max (max (-1000000000 : ℚ) d.y0) d.y1) d.y2) d.y3

/-! ## Scale factors from downsampled to full resolution
(main.cpp lines 161-162): sx = float(gray.cols)/LOW_W etc. -/

def scaleX (fw : Int) : ℚ := (fw : ℚ) / 640

def scaleY (fh : Int) : ℚ := (fh : ℚ) / 480

/-! ## The ROI rectangle before clipping (main.cpp lines 166-170):
cv::Rect(int(minx*sx)-ROI_PAD, int(miny*sy)-ROI_PAD,
int((maxx-minx)*sx)+2*ROI_PAD, int((maxy-miny)*sy)+2*ROI_PAD). -/

def roiRaw (fw fh : Int) (d : Det) : Rect :=
  ⟨truncQ (detMinX d * scaleX fw) - ROI_PAD,
   truncQ (detMinY d * scaleY fh) - ROI_PAD,
   truncQ ((detMaxX d - detMinX d) * scaleX fw) + 2 * ROI_PAD,
   truncQ ((detMaxY d - detMinY d) * scaleY fh) + 2 * ROI_PAD⟩

/-! ## The clip against the frame bounds (main.cpp line 171):
the raw rectangle intersected with cv::Rect(0,0,gray.cols,gray.rows). -/

def roiClipped (fw fh : Int) (d : Det) : Rect :=
  rectInter (roiRaw fw fh d) ⟨0, 0, fw, fh⟩

/-! ## One iteration of the lowResThread loop after taking a frame
(main.cpp lines 136-178): the detector output on the downsampled image
is the input list; zero detections means continue with no publish;
otherwise detection index 0 is used and an ROIResult with the clipped
rectangle and valid set to true is published.  There is no emptiness
check on the clipped rectangle. -/

def lowResCycle (fd : FrameData) (dets : List Det) : Option ROIResult :=
  match dets with
  | [] => none
  | d :: _ => some ⟨fd, roiClipped fd.w fd.h d, true⟩

/-! ## Single-slot mailbox (the shared_ptr globals guarded by a mutex,
main.cpp lines 51-58 with the publish sites at lines 108-112, 174-178,
255-259 and the take sites at lines 128-134, 198-204, 274-280).
The slot is an Option: publish overwrites unconditionally, the take
copies the slot and resets it to empty. -/

def publish {α : Type} (v : α) (_slot : Option α) : Option α := some v

def publishSeq {α : Type} (vs : List α) (slot : Option α) : Option α :=
  vs.foldl (fun s v => publish v s) slot

def takeValue {α : Type} (slot : Option α) : Option α × Option α :=
  (slot, none)

/-! ## Effect of one lowResThread iteration on Mailbox B
(the roi_result slot): no detections leaves the slot untouched,
otherwise the result is published with overwrite. -/

def lowResStep (fd : FrameData) (dets : List Det) (slotB : Option ROIResult) :
    Option ROIResult :=
  match lowResCycle fd dets with
  | none => slotB
  | some r => publish r slotB

/-! ## Shutdown and the condition-variable wait.  Every consumer blocks
in cv.wait(lk, pred) with pred = (slot is occupied) or (not running)
(main.cpp lines 129, 199, 275).  A blocked waiter leaves the wait only
when a notification arrives while its predicate holds; absent any
notification it stays blocked (the code never relies on spurious
wakes, and the spec explicitly refuses to).  The quit path
(main.cpp lines 298-299) assigns running = false and notifies no
condition variable. -/

structure StageWait where
  slotFull : Bool
  running : Bool
  blocked : Bool
deriving DecidableEq

def waitPred (s : StageWait) : Bool := s.slotFull || !s.running

def notifyWaiter (s : StageWait) : StageWait :=
  if s.blocked && waitPred s then { s with blocked := false } else s

def quitShutdown (s : StageWait) : StageWait :=
  { s with running := false }

/-- Modelled from the spec: sections 4.1 and 5 require shutdown to set
the stop state and broadcast a wake to every Mailbox waiter, so that a
blocked waitAndTake returns immediately.  This definition follows the
spec words; it is not in the source and exists only for comparison
with quitShutdown. -/
def specShutdownBroadcast (s : StageWait) : StageWait :=
  notifyWaiter { s with running := false }

/-! ## Detector configuration (main.cpp lines 121-125 and 192-195).
quad_decimate is the AprilTag decimation knob: 1.0 means the quad
search runs on the full input (finest), larger values decimate the
input first (coarser, faster).  The low-res detector sets
quad_decimate = 1.0 and nthreads = 1; the high-res detector sets
quad_decimate = 3.0 and leaves nthreads at the library default. -/

structure DetectorCfg where
  quad_decimate : ℚ
  nthreads : Option Nat
deriving DecidableEq

def lowResDetector : DetectorCfg := ⟨1, some 1⟩

def highResDetector : DetectorCfg := ⟨3, none⟩

/-! ## The highResThread cycle (main.cpp lines 197-261).  The take from
Mailbox B yields an ROIResult; an invalid one is skipped (line 206).
The grayscale frame is cropped to the ROI and the detector runs on the
crop; its output is the input list of detections with ROI-local corner
coordinates.  Zero detections: skip (lines 218-221).  Otherwise
detection index 0 is used; its corners are translated back to
full-frame coordinates by adding the ROI origin (lines 226-231), the
fixed object points of the square tag are built (lines 233-238), and
cv::solvePnP followed by cv::Rodrigues is invoked.  Both are external;
they are modelled by a function parameter from object and image points
to a SolveOut carrying the boolean solvePnP returns (which the source
discards, line 241), the rotation-matrix entries R(1,0) and R(0,0)
that the yaw computation reads (lines 243-246), and the translation
vector.  A PoseResult with valid = true is then published
unconditionally (lines 248-259). -/

def invalidSkipROI (r : ROIResult) : Bool := !r.valid

/-- The full-frame image points: det.p[i] plus the ROI origin
(main.cpp lines 226-231). -/
def imgPts (r : Rect) (d : Det) : List (ℚ × ℚ) :=
  [(d.x0 + (r.x : ℚ), d.y0 + (r.y : ℚ)),
   (d.x1 + (r.x : ℚ), d.y1 + (r.y : ℚ)),
   (d.x2 + (r.x : ℚ), d.y2 + (r.y : ℚ)),
   (d.x3 + (r.x : ℚ), d.y3 + (r.y : ℚ))]

/-- The object points of the square tag (main.cpp lines 233-238). -/
def objPts : List (ℚ × ℚ × ℚ) :=
  [(-TAG_SIZE / 2, -TAG_SIZE / 2, 0),
   (TAG_SIZE / 2, -TAG_SIZE / 2, 0),
   (TAG_SIZE / 2, TAG_SIZE / 2, 0),
   (-TAG_SIZE / 2, TAG_SIZE / 2, 0)]

/-- Output of the external solve step: the Bool cv::solvePnP returns,
the entries R(1,0) and R(0,0) of the Rodrigues rotation, and tvec. -/
structure SolveOut where
  ok : Bool
  r00 : ℚ
  r10 : ℚ
  tx : ℚ
  ty : ℚ
  tz : ℚ
deriving DecidableEq

/-- The yaw computation (main.cpp lines 245-246):
atan2(R(1,0), R(0,0)) * 180 / pi.  Real atan2 of y and x is the
argument of the complex number x + y*i, which also agrees with the C
convention atan2(0,0) = 0. -/
noncomputable def yawDeg (r00 r10 : ℝ) : ℝ :=
  Complex.arg ⟨r00, r10⟩ * 180 / Real.pi

structure PoseResult where
  data : FrameData
  tvec : ℚ × ℚ × ℚ
  yaw : ℝ
  roi : Rect
  valid : Bool

def invalidSkipPose (p : PoseResult) : Bool := !p.valid

noncomputable def highResCycle (rr : ROIResult) (dets : List Det)
    (solve : List (ℚ × ℚ × ℚ) → List (ℚ × ℚ) → SolveOut) :
    Option PoseResult :=
  if invalidSkipROI rr then none
  else
    match dets with
    | [] => none
    | d :: _ =>
      let sol := solve objPts (imgPts rr.roi d)
      some ⟨rr.data, (sol.tx, sol.ty, sol.tz),
            yawDeg (sol.r00 : ℝ) (sol.r10 : ℝ), rr.roi, true⟩

/-! ## Concrete instances used by the closed theorems below. -/

def fdW : FrameData := ⟨640, 480, 0⟩

def dW : Det := detOfInts 10 20 50 20 50 60 10 60

def rrW : ROIResult := ⟨fdW, ⟨0, 0, 100, 100⟩, true⟩

def solveW : List (ℚ × ℚ × ℚ) → List (ℚ × ℚ) → SolveOut :=
  fun _ _ => ⟨true, 1, 0, 0, 0, 0⟩

/-- A solve step whose boolean result reports failure (a degenerate
solve); the numeric output is arbitrary. -/
def solveFail : List (ℚ × ℚ × ℚ) → List (ℚ × ℚ) → SolveOut :=
  fun _ _ => ⟨false, 0, 0, 0, 0, 0⟩

/-- The pose result highResCycle produces from rrW, dW and solveW. -/
noncomputable def poseW : PoseResult :=
  ⟨fdW, (0, 0, 0), yawDeg ((1 : ℚ) : ℝ) ((0 : ℚ) : ℝ), ⟨0, 0, 100, 100⟩, true⟩

/-- A detection whose corner coordinates are all (-500, -500): its
padded, scaled bounding box lies entirely left of and above the frame,
so clipping collapses it to the empty rectangle. -/
def dEmpty : Det :=
  detOfInts (-500) (-500) (-500) (-500) (-500) (-500) (-500) (-500)

/-- A detection with fractional corner x-coordinates
(1/2, 0), (10, 0), (10, 5), (1/2, 5). -/
def dFrac : Det := ⟨1 / 2, 0, 10, 0, 10, 5, 1 / 2, 5⟩

/-! ## The spec-side rectangle for comparison, over exact rationals. -/

structure QRect where
  qx : ℚ
  qy : ℚ
  qw : ℚ
  qh : ℚ
deriving DecidableEq

/-- Modelled from the spec: the axis-aligned bounding box of the four
corner points of a detection, expanded by the fixed padding margin on
all sides, computed in exact arithmetic with no truncation and no
seeds.  This follows the words of the spec (section 4.3 and the
coordinate mapping identity of section 8) and exists only for
comparison with roiRaw. -/
def paddedCornerBox (d : Det) : QRect :=
  ⟨min (min (min d.x0 d.x1) d.x2) d.x3 - (ROI_PAD : ℚ),
   min (min (min d.y0 d.y1) d.y2) d.y3 - (ROI_PAD : ℚ),
   (max (max (max d.x0 d.x1) d.x2) d.x3 - min (min (min d.x0 d.x1) d.x2) d.x3)
     + 2 * (ROI_PAD : ℚ),
   (max (max (max d.y0 d.y1) d.y2) d.y3 - min (min (min d.y0 d.y1) d.y2) d.y3)
     + 2 * (ROI_PAD : ℚ)⟩

/-! ## Helper lemmas -/

theorem truncQ_intCast (n : Int) : truncQ ((n : ℚ)) = n := by
  unfold truncQ
  split_ifs
  · exact Int.floor_intCast n
  · exact Int.ceil_intCast n

theorem scaleX_full : scaleX 640 = 1 := by norm_num [scaleX]

theorem scaleY_full : scaleY 480 = 1 := by norm_num [scaleY]

theorem seedQ : (1000000000 : ℚ) = ((1000000000 : Int) : ℚ) := by norm_num

theorem seedQneg : (-1000000000 : ℚ) = ((-1000000000 : Int) : ℚ) := by norm_num

theorem detMinX_int (x0 y0 x1 y1 x2 y2 x3 y3 : Int) (h : x0 ≤ 1000000000) :
    detMinX (detOfInts x0 y0 x1 y1 x2 y2 x3 y3)
      = ((min (min (min x0 x1) x2) x3 : Int) : ℚ) := by
  simp only [detMinX, detOfInts]
  rw [seedQ, ← Int.cast_min, ← Int.cast_min, ← Int.cast_min, ← Int.cast_min,
      min_eq_right h]

theorem detMinY_int (x0 y0 x1 y1 x2 y2 x3 y3 : Int) (h : y0 ≤ 1000000000) :
    detMinY (detOfInts x0 y0 x1 y1 x2 y2 x3 y3)
      = ((min (min (min y0 y1) y2) y3 : Int) : ℚ) := by
  simp only [detMinY, detOfInts]
  rw [seedQ, ← Int.cast_min, ← Int.cast_min, ← Int.cast_min, ← Int.cast_min,
      min_eq_right h]

theorem detMaxX_int (x0 y0 x1 y1 x2 y2 x3 y3 : Int) (h : -1000000000 ≤ x0) :
    detMaxX (detOfInts x0 y0 x1 y1 x2 y2 x3 y3)
      = ((max (max (max x0 x1) x2) x3 : Int) : ℚ) := by
  simp only [detMaxX, detOfInts]
  rw [seedQneg, ← Int.cast_max, ← Int.cast_max, ← Int.cast_max, ← Int.cast_max,
      max_eq_right h]

theorem detMaxY_int (x0 y0 x1 y1 x2 y2 x3 y3 : Int) (h : -1000000000 ≤ y0) :
    detMaxY (detOfInts x0 y0 x1 y1 x2 y2 x3 y3)
      = ((max (max (max y0 y1) y2) y3 : Int) : ℚ) := by
  simp only [detMaxY, detOfInts]
  rw [seedQneg, ← Int.cast_max, ← Int.cast_max, ← Int.cast_max, ← Int.cast_max,
      max_eq_right h]

/-- On a detection with integer corner coordinates in the seed range,
the unclipped ROI of the coarse stage at unit scale factors is exactly
the padded integer bounding box of the corners. -/
theorem roiRaw_intCorners (x0 y0 x1 y1 x2 y2 x3 y3 : Int)
    (hb : ∀ v ∈ [x0, x1, x2, x3, y0, y1, y2, y3],
      -1000000000 ≤ v ∧ v ≤ 1000000000) :
    roiRaw 640 480 (detOfInts x0 y0 x1 y1 x2 y2 x3 y3) =
      ⟨min (min (min x0 x1) x2) x3 - ROI_PAD,
       min (min (min y0 y1) y2) y3 - ROI_PAD,
       (max (max (max x0 x1) x2) x3 - min (min (min x0 x1) x2) x3)
         + 2 * ROI_PAD,
       (max (max (max y0 y1) y2) y3 - min (min (min y0 y1) y2) y3)
         + 2 * ROI_PAD⟩ := by
  have hx0 := hb x0 (by simp)
  have hy0 := hb y0 (by simp)
  unfold roiRaw
  rw [detMinX_int x0 y0 x1 y1 x2 y2 x3 y3 hx0.2,
      detMinY_int x0 y0 x1 y1 x2 y2 x3 y3 hy0.2,
      detMaxX_int x0 y0 x1 y1 x2 y2 x3 y3 hx0.1,
      detMaxY_int x0 y0 x1 y1 x2 y2 x3 y3 hy0.1,
      scaleX_full, scaleY_full]
  simp only [mul_one, ← Int.cast_sub, truncQ_intCast]

/-- The OpenCV intersection of any rectangle with the frame rectangle
0,0,W,H lies inside the frame whenever W and H are nonnegative. -/
theorem rectInter_frame (a : Rect) (W H : Int) (hW : 0 ≤ W) (hH : 0 ≤ H) :
    0 ≤ (rectInter a ⟨0, 0, W, H⟩).x ∧ 0 ≤ (rectInter a ⟨0, 0, W, H⟩).y ∧
    (rectInter a ⟨0, 0, W, H⟩).x + (rectInter a ⟨0, 0, W, H⟩).w ≤ W ∧
    (rectInter a ⟨0, 0, W, H⟩).y + (rectInter a ⟨0, 0, W, H⟩).h ≤ H := by
  unfold rectInter
  split_ifs
  · dsimp only
    omega
  · dsimp only
    refine ⟨?_, ?_, ?_, ?_⟩ <;> omega

/-- Folding publish over a nonempty list leaves exactly the last
element in the slot, whatever was there before. -/
theorem publishSeq_getLast {α : Type} :
    ∀ (vs : List α) (hne : vs ≠ []) (s : Option α),
      publishSeq vs s = some (vs.getLast hne)
  | [v], _, _ => rfl
  | _ :: b :: t, _, s => publishSeq_getLast (b :: t) (by simp) (some _)

/-- The range of the yaw computation: Complex.arg lands in the
half-open interval from -pi exclusive to pi inclusive, so the degree
conversion lands in the half-open interval from -180 to 180. -/
theorem yawDeg_mem_Ioc (x y : ℝ) : yawDeg x y ∈ Set.Ioc (-180 : ℝ) 180 := by
  have hpi := Real.pi_pos
  have h := Complex.arg_mem_Ioc ⟨x, y⟩
  rw [Set.mem_Ioc] at h ⊢
  unfold yawDeg
  constructor
  · rw [lt_div_iff₀ hpi]
    nlinarith [h.1]
  · rw [div_le_iff₀ hpi]
    nlinarith [h.2]

/-! ## Claim theorems -/

/-- C1, counterexample: the claim states that raising the shutdown
signal wakes a stage blocked in waitAndTake on an empty Mailbox.  In
the source the quit path only assigns running = false and notifies no
condition variable, so from the state (slot empty, running, consumer
blocked) the consumer is still blocked after shutdown, refuting the
claim at this concrete state. -/
theorem shutdown_no_wake_cx :
    ¬ ((quitShutdown ⟨false, true, true⟩).blocked = false) := by decide

/-- C1, amended: the coded shutdown merely sets the running flag and
performs no notification, so a blocked consumer stays blocked; the
broadcast-style shutdown the spec prescribes would unblock it. -/
theorem shutdown_flag_only (s : StageWait) (h : s.blocked = true) :
    (quitShutdown s).blocked = true ∧ (quitShutdown s).running = false ∧
    (specShutdownBroadcast s).blocked = false := by
  cases s with
  | mk sf rn bl =>
    cases h
    refine ⟨rfl, rfl, ?_⟩
    simp [specShutdownBroadcast, notifyWaiter, quitShutdown, waitPred]

/-- C1, witness for the amended theorem at the concrete blocked
state. -/
theorem shutdown_flag_only_witness :
    (quitShutdown ⟨false, true, true⟩).blocked = true ∧
    (quitShutdown ⟨false, true, true⟩).running = false ∧
    (specShutdownBroadcast ⟨false, true, true⟩).blocked = false :=
  shutdown_flag_only ⟨false, true, true⟩ rfl

/-- C2: publish overwrites any unconsumed prior value (the slot holds
at most one value by construction), a sequence of N publishes with no
intervening take leaves exactly the last value, the following take
returns that last value, and the take empties the slot. -/
theorem mailbox_latest_wins {α : Type} (vs : List α) (s : Option α)
    (hne : vs ≠ []) :
    (∀ (w v : α), publish v (some w) = some v) ∧
    publishSeq vs s = some (vs.getLast hne) ∧
    takeValue (publishSeq vs s) = (some (vs.getLast hne), none) := by
  refine ⟨fun _ _ => rfl, publishSeq_getLast vs hne s, ?_⟩
  rw [takeValue, publishSeq_getLast vs hne s]

/-- C2, witness: three successive publishes of 1, 2, 3 into an empty
slot leave 3; the take returns 3 and empties the slot. -/
theorem mailbox_latest_wins_witness :
    publishSeq [1, 2, 3] (none : Option Nat) = some 3 ∧
    takeValue (publishSeq [1, 2, 3] (none : Option Nat)) = (some 3, none) := by
  have h := mailbox_latest_wins [1, 2, 3] (none : Option Nat) (by simp)
  exact ⟨h.2.1, h.2.2⟩

/-- C3: every ROI Result the coarse stage publishes with valid = true
has its rectangle fully contained in the originating frame bounds:
nonnegative origin and far edges within width and height, for every
frame (of nonnegative dimensions) and every detector output. -/
theorem roi_within_bounds (fd : FrameData) (dets : List Det) (r : ROIResult)
    (hfw : 0 ≤ fd.w) (hfh : 0 ≤ fd.h)
    (hpub : lowResCycle fd dets = some r) (_hval : r.valid = true) :
    0 ≤ r.roi.x ∧ 0 ≤ r.roi.y ∧
    r.roi.x + r.roi.w ≤ fd.w ∧ r.roi.y + r.roi.h ≤ fd.h := by
  cases dets with
  | nil => simp [lowResCycle] at hpub
  | cons d rest =>
    have hr : (⟨fd, roiClipped fd.w fd.h d, true⟩ : ROIResult) = r := by
      simpa [lowResCycle] using hpub
    subst hr
    exact rectInter_frame (roiRaw fd.w fd.h d) fd.w fd.h hfw hfh

/-- C3, witness: the concrete 640 by 480 frame and the concrete
integer-corner detection. -/
theorem roi_within_bounds_witness :
    0 ≤ (roiClipped 640 480 dW).x ∧ 0 ≤ (roiClipped 640 480 dW).y ∧
    (roiClipped 640 480 dW).x + (roiClipped 640 480 dW).w ≤ 640 ∧
    (roiClipped 640 480 dW).y + (roiClipped 640 480 dW).h ≤ 480 :=
  roi_within_bounds fdW [dW] ⟨fdW, roiClipped 640 480 dW, true⟩
    (by decide) (by decide) rfl rfl

/-- C4, counterexample: the claim states that when clipping collapses
the rectangle to empty no ROI Result is published.  For the detection
with all corners at (-500, -500) on a 640 by 480 frame the clipped
rectangle is empty, yet the coarse stage still publishes an ROI Result
(with valid = true) carrying it: the source has no emptiness check
between the clip at line 171 and the publish at lines 174-178. -/
theorem empty_roi_still_published_cx :
    rectEmpty (roiClipped 640 480 dEmpty) = true ∧
    lowResCycle fdW [dEmpty] = some ⟨fdW, roiClipped 640 480 dEmpty, true⟩ := by
  constructor
  · have h := roiRaw_intCorners (-500) (-500) (-500) (-500) (-500) (-500)
      (-500) (-500) (by decide)
    unfold roiClipped dEmpty
    rw [h]
    decide
  · rfl

/-- C4, amended: whenever the detector returns at least one detection
the coarse stage publishes an ROI Result with the clipped rectangle
and valid = true, with no emptiness check: a rectangle collapsed to
empty by clipping is published like any other. -/
theorem publish_even_if_empty :
    ∀ (fd : FrameData) (d : Det) (rest : List Det),
      lowResCycle fd (d :: rest) = some ⟨fd, roiClipped fd.w fd.h d, true⟩ :=
  fun _ _ _ => rfl

/-- C5, counterexample: the claim states the precision stage uses finer
search refinement than the coarse stage; with the decimation knob,
finer means a strictly smaller quad_decimate.  In the source the
precision stage sets quad_decimate to 3.0 while the coarse stage sets
1.0, so the precision stage is not configured finer. -/
theorem refinement_reversed_cx :
    ¬ (highResDetector.quad_decimate < lowResDetector.quad_decimate) := by
  norm_num [highResDetector, lowResDetector]

/-- C5, amended: the coarse stage runs with quad_decimate 1.0 (no
decimation, the finest quad search) and a single worker thread, while
the precision stage runs with quad_decimate 3.0: a coarser quad
search than the coarse stage, not a finer one. -/
theorem detector_decimation_actual :
    lowResDetector.quad_decimate = 1 ∧ lowResDetector.nthreads = some 1 ∧
    highResDetector.quad_decimate = 3 ∧
    lowResDetector.quad_decimate < highResDetector.quad_decimate := by
  refine ⟨rfl, rfl, rfl, ?_⟩
  norm_num [highResDetector, lowResDetector]

/-- C6, counterexample: the claim states the precision stage checks for
a degenerate solver result and drops the cycle.  The source discards
the Bool cv::solvePnP returns (line 241) and performs no finiteness
check: with a solve step reporting failure, a Pose Result is published
anyway. -/
theorem pnp_failure_published_cx :
    (solveFail objPts (imgPts rrW.roi dW)).ok = false ∧
    (highResCycle rrW [dW] solveFail).isSome = true :=
  ⟨rfl, rfl⟩

/-- C6, amended: the precision stage performs no check on the solver
result; for every valid input ROI with at least one detection a Pose
Result is published regardless of the solve outcome.  Dropping the
cycle on a degenerate or non-finite pose is the spec-prescribed policy
only, absent from the source (flagged there as a baseline gap). -/
theorem pose_published_regardless_of_solver (rr : ROIResult) (d : Det)
    (rest : List Det)
    (solve : List (ℚ × ℚ × ℚ) → List (ℚ × ℚ) → SolveOut)
    (h : rr.valid = true) :
    (highResCycle rr (d :: rest) solve).isSome = true := by
  simp [highResCycle, invalidSkipROI, h]

/-- C6, witness for the amended theorem: even the failing solve step
yields a published pose for the concrete valid ROI. -/
theorem pose_published_regardless_witness :
    (highResCycle rrW [dW] solveFail).isSome = true :=
  pose_published_regardless_of_solver rrW dW [] solveFail rfl

/-- C7: a frame for which the detector returns zero detections
produces no ROI Result (a silent no-op: the cycle function returns
none and Mailbox B is left untouched), and a pose stage waiting on an
empty Mailbox B while the pipeline runs has a false wait predicate, so
it stays blocked and performs no work that cycle. -/
theorem zero_detections_no_publish :
    ∀ (fd : FrameData) (slotB : Option ROIResult),
      lowResCycle fd [] = none ∧ lowResStep fd [] slotB = slotB ∧
      waitPred ⟨false, true, true⟩ = false :=
  fun _ _ => ⟨rfl, rfl, rfl⟩

/-- C8: every Pose Result the precision stage publishes carries a yaw
equal to atan2 of the rotation entries R(1,0) and R(0,0) converted to
degrees, and that yaw lies in the half-open interval from -180
exclusive to 180 inclusive. -/
theorem yaw_computed_and_in_range (rr : ROIResult) (d : Det) (rest : List Det)
    (solve : List (ℚ × ℚ × ℚ) → List (ℚ × ℚ) → SolveOut) (pr : PoseResult)
    (hpub : highResCycle rr (d :: rest) solve = some pr) :
    pr.yaw = yawDeg ((solve objPts (imgPts rr.roi d)).r00 : ℝ)
      ((solve objPts (imgPts rr.roi d)).r10 : ℝ) ∧
    pr.yaw ∈ Set.Ioc (-180 : ℝ) 180 := by
  simp only [highResCycle] at hpub
  by_cases hv : invalidSkipROI rr = true
  · rw [if_pos hv] at hpub
    exact absurd hpub (by simp)
  · rw [if_neg hv, Option.some.injEq] at hpub
    subst hpub
    exact ⟨rfl, yawDeg_mem_Ioc _ _⟩

/-- C8, witness: the concrete published pose of rrW, dW and solveW has
its yaw in range. -/
theorem yaw_in_range_witness : poseW.yaw ∈ Set.Ioc (-180 : ℝ) 180 :=
  (yaw_computed_and_in_range rrW dW [] solveW poseW rfl).2

/-- C9, counterexample: the claim states that with both scale factors
equal to 1 the unclipped ROI equals, exactly, the padded bounding box
of the four corner points.  At the fractional detection dFrac (corner
x-coordinates 1/2 and 10) the code truncates toward zero before
padding: its x origin is -80 while the exact padded box has x origin
1/2 - 80, so the rectangles differ. -/
theorem roi_identity_fails_fractional_cx :
    scaleX 640 = 1 ∧ scaleY 480 = 1 ∧
    ¬ (((roiRaw 640 480 dFrac).x : ℚ) = (paddedCornerBox dFrac).qx ∧
       ((roiRaw 640 480 dFrac).y : ℚ) = (paddedCornerBox dFrac).qy ∧
       ((roiRaw 640 480 dFrac).w : ℚ) = (paddedCornerBox dFrac).qw ∧
       ((roiRaw 640 480 dFrac).h : ℚ) = (paddedCornerBox dFrac).qh) := by
  refine ⟨scaleX_full, scaleY_full, ?_⟩
  intro hcon
  have h1 := hcon.1
  have hx : (roiRaw 640 480 dFrac).x = -80 := by
    norm_num [roiRaw, dFrac, detMinX, scaleX, truncQ, min_def, ROI_PAD]
  have hqx : (paddedCornerBox dFrac).qx = -159 / 2 := by
    norm_num [paddedCornerBox, dFrac, min_def, ROI_PAD]
  rw [hx, hqx] at h1
  norm_num at h1

/-- C9, amended: with both scale factors equal to 1, on a detection
whose corner coordinates are integers (within the detector seed range
of magnitude at most 10^9) the unclipped ROI equals exactly the
axis-aligned bounding box of the four corners expanded by the padding
margin on all sides; on fractional corners the code truncates the
scaled minima and extents toward zero first. -/
theorem roi_identity_integer_corners (x0 y0 x1 y1 x2 y2 x3 y3 : Int)
    (hb : ∀ v ∈ [x0, x1, x2, x3, y0, y1, y2, y3],
      -1000000000 ≤ v ∧ v ≤ 1000000000) :
    roiRaw 640 480 (detOfInts x0 y0 x1 y1 x2 y2 x3 y3) =
      ⟨min (min (min x0 x1) x2) x3 - ROI_PAD,
       min (min (min y0 y1) y2) y3 - ROI_PAD,
       (max (max (max x0 x1) x2) x3 - min (min (min x0 x1) x2) x3)
         + 2 * ROI_PAD,
       (max (max (max y0 y1) y2) y3 - min (min (min y0 y1) y2) y3)
         + 2 * ROI_PAD⟩ :=
  roiRaw_intCorners x0 y0 x1 y1 x2 y2 x3 y3 hb

/-- C9, witness for the amended theorem: the detection with corners
(10,20), (50,20), (50,60), (10,60) yields the unclipped ROI
(-70, -60, 200, 200), the padded bounding box of its corners. -/
theorem roi_identity_integer_corners_witness :
    roiRaw 640 480 (detOfInts 10 20 50 20 50 60 10 60) =
      ⟨-70, -60, 200, 200⟩ := by
  have h := roi_identity_integer_corners 10 20 50 20 50 60 10 60 (by decide)
  rw [h]
  decide

/-- C10: every ROI Result the coarse stage publishes and every Pose
Result the precision stage publishes has valid = true, so the
invalid-skip branches of the precision stage and of the presentation
stage are never taken on a published value. -/
theorem published_results_valid :
    (∀ (fd : FrameData) (dets : List Det) (r : ROIResult),
        lowResCycle fd dets = some r →
        r.valid = true ∧ invalidSkipROI r = false) ∧
    (∀ (rr : ROIResult) (dets : List Det)
        (solve : List (ℚ × ℚ × ℚ) → List (ℚ × ℚ) → SolveOut)
        (pr : PoseResult),
        highResCycle rr dets solve = some pr →
        pr.valid = true ∧ invalidSkipPose pr = false) := by
  constructor
  · intro fd dets r h
    cases dets with
    | nil => simp [lowResCycle] at h
    | cons d rest =>
      have hr : (⟨fd, roiClipped fd.w fd.h d, true⟩ : ROIResult) = r := by
        simpa [lowResCycle] using h
      subst hr
      exact ⟨rfl, rfl⟩
  · intro rr dets solve pr h
    simp only [highResCycle] at h
    by_cases hv : invalidSkipROI rr = true
    · rw [if_pos hv] at h
      exact absurd h (by simp)
    · rw [if_neg hv] at h
      cases dets with
      | nil => exact absurd h (by simp)
      | cons d rest =>
        rw [Option.some.injEq] at h
        subst h
        exact ⟨rfl, rfl⟩

/-- C10, witness: the concrete published ROI Result and Pose Result
both carry valid = true. -/
theorem published_results_valid_witness :
    (⟨fdW, roiClipped 640 480 dW, true⟩ : ROIResult).valid = true ∧
    poseW.valid = true :=
  ⟨(published_results_valid.1 fdW [dW] ⟨fdW, roiClipped 640 480 dW, true⟩
      rfl).1,
   (published_results_valid.2 rrW [dW] solveW poseW rfl).1⟩

end Vision
